import Mathlib

/-!
Verification development for a minimal PubNub-style publish/subscribe client
(`src/pubnub.rs`).  The protocol engine is embedded shallowly: the external
transport (socket), JSON decoder and percent-encoder are modelled as black
boxes exactly at the interface the engine uses, and every function of the
engine itself (`http_response`, `SubscribeClient::new`, `subscribe`,
`next_message`, `PublishClient::publish`) is translated line by line.

Machine conventions of the embedding:
* stateful Rust methods become explicit state passing, returning a pair of
  the Rust return value and the updated state;
* the two potentially non-terminating loops (the header scan in
  `http_response` and the self-recursion of `next_message`) take a fuel
  argument and return `Option`, where `none` means the fuel ran out before
  the source loop returned;
* byte-oriented `str` operations (`len`, `contains`, `split_whitespace`,
  `parse`) are re-implemented on Lean strings below, byte-faithful for the
  ASCII data the protocol carries.
-/

/-- Number of UTF-8 bytes of a character, mirroring how Rust measures
`String::len` in bytes. -/
def charBytes (c : Char) : Nat :=
  if c.toNat < 0x80 then 1
  else if c.toNat < 0x800 then 2
  else if c.toNat < 0x10000 then 3
  else 4

/-- Byte length of a string: Rust `str::len`. -/
def byteLen (s : String) : Nat :=
  s.data.foldl (fun n c => n + charBytes c) 0

/-- Whether the character list `needle` occurs contiguously inside the second
list; the list form of Rust `str::contains` for a literal pattern. -/
def occursIn (needle : List Char) : List Char → Bool
  | [] => needle.isEmpty
  | c :: rest => List.isPrefixOf needle (c :: rest) || occursIn needle rest

/-- Rust `str::contains` with a literal substring pattern. -/
def strContains (hay needle : String) : Bool :=
  occursIn needle.data hay.data

/-- Accumulating worker for `split_whitespace`; `acc` holds the current word
reversed. -/
def wsWords (acc : List Char) : List Char → List String
  | [] => if acc.isEmpty then [] else [String.mk acc.reverse]
  | c :: cs =>
    if c.isWhitespace then
      if acc.isEmpty then wsWords [] cs
      else String.mk acc.reverse :: wsWords [] cs
    else wsWords (c :: acc) cs

/-- Rust `str::split_whitespace`: the maximal whitespace-free words of the
string, in order, with empty words dropped. -/
def split_whitespace (s : String) : List String :=
  wsWords [] s.data

/-- Rust `str::parse::<usize>()`: an optional leading plus sign followed by a
nonempty run of ASCII digits; anything else fails. -/
def parseUsize (s : String) : Option Nat :=
  let ds := match s.data with
    | '+' :: rest => rest
    | l => l
  if ds.isEmpty then none
  else if ds.all (fun c => c.isDigit) then
    some (ds.foldl (fun n c => n * 10 + (c.toNat - 48)) 0)
  else none

/-- Modelled from the spec: the JSON value type of the external `json` crate
(`JsonValue`), which `src/pubnub.rs` consumes as a black box.  Numbers are
modelled as integers; the protocol only ever stringifies them. -/
inductive Json where
  | null
  | bool (b : Bool)
  | num (n : Int)
  | str (s : String)
  | arr (elems : List Json)
  | obj (fields : List (String × Json))

mutual

/-- Modelled from the spec: the serializing `Display` of the external `json`
crate for composite values (`dump`). -/
def Json.dump : Json → String
  | .null => "null"
  | .bool b => cond b "true" "false"
  | .num n => toString n
  | .str s => "\x22" ++ s ++ "\x22"
  | .arr xs => "[" ++ dumpArr xs ++ "]"
  | .obj fs => "\x7b" ++ dumpObj fs ++ "\x7d"

/-- Comma-separated dump of array elements. -/
def dumpArr : List Json → String
  | [] => ""
  | [x] => Json.dump x
  | x :: y :: xs => Json.dump x ++ "," ++ dumpArr (y :: xs)

/-- Comma-separated dump of object fields. -/
def dumpObj : List (String × Json) → String
  | [] => ""
  | [f] => "\x22" ++ f.1 ++ "\x22:" ++ Json.dump f.2
  | f :: g :: fs => "\x22" ++ f.1 ++ "\x22:" ++ Json.dump f.2 ++ "," ++ dumpObj (g :: fs)

end

/-- Modelled from the spec: `JsonValue::to_string` of the external `json`
crate — scalar values display bare (strings without quotes, `null` as the
word), composite values as their JSON dump. -/
def Json.toStr : Json → String
  | .null => "null"
  | .bool b => cond b "true" "false"
  | .num n => toString n
  | .str s => s
  | .arr xs => Json.dump (.arr xs)
  | .obj fs => Json.dump (.obj fs)

/-- Modelled from the spec: indexing a `JsonValue` by string key — the first
matching field of an object, `null` for a missing key or a non-object. -/
def Json.getKey : Json → String → Json
  | .obj fields, k =>
    match fields.find? (fun f => f.1 == k) with
    | some f => f.2
    | none => .null
  | _, _ => .null

/-- Modelled from the spec: indexing a `JsonValue` by integer position — the
element of an array, `null` when out of range or for a non-array. -/
def Json.getIdx : Json → Nat → Json
  | .arr xs, i => (xs.get? i).getD .null
  | _, _ => .null

/-- Modelled from the spec: `JsonValue::members` — the elements of an array,
an empty list for any other value. -/
def Json.members : Json → List Json
  | .arr xs => xs
  | _ => []

/-- A socket operation, recorded so that theorems can speak about which I/O a
call performed. -/
inductive SockEvent where
  | readln
  | read (n : Nat)
  | write (request : String)
  deriving DecidableEq

/-- Modelled from the spec: the transport (`crate::socket::Socket`, an
external collaborator per the spec) as an oracle.  The three functions give
the outcome of the k-th line read, fixed-length read, and write; the three
counters say how many of each have happened, and `log` records every
operation performed. -/
structure Socket where
  readlnF : Nat → Except Unit String
  readF : Nat → Nat → Except Unit String
  writeF : Nat → String → Except Unit Nat
  lpos : Nat
  rpos : Nat
  wpos : Nat
  log : List SockEvent

/-- Transport `read_line`: next line (terminator included) or an error. -/
def Socket.readln (s : Socket) : Except Unit String × Socket :=
  (s.readlnF s.lpos,
   { s with lpos := s.lpos + 1, log := s.log ++ [SockEvent.readln] })

/-- Transport `read_exact`-style `read(n)`: `n` bytes or an error. -/
def Socket.read (s : Socket) (n : Nat) : Except Unit String × Socket :=
  (s.readF s.rpos n,
   { s with rpos := s.rpos + 1, log := s.log ++ [SockEvent.read n] })

/-- Transport `write`: bytes written or an error. -/
def Socket.write (s : Socket) (request : String) : Except Unit Nat × Socket :=
  (s.writeF s.wpos request,
   { s with wpos := s.wpos + 1, log := s.log ++ [SockEvent.write request] })

/-- The socket after `n` further successful line reads and nothing else. -/
def Socket.advanceLn (s : Socket) (n : Nat) : Socket :=
  { s with lpos := s.lpos + n,
           log := s.log ++ List.replicate n SockEvent.readln }

/-- The error taxonomy of `src/pubnub.rs` (`enum Error`). -/
inductive Error where
  | Initialize
  | Publish
  | PublishWrite
  | PublishResponse
  | Subscribe
  | SubscribeWrite
  | SubscribeRead
  | MissingChannel
  | HTTPResponse
  deriving DecidableEq

/-- A delivered message (`struct Message` of `src/pubnub.rs`). -/
structure Message where
  channel : String
  data : String
  metadata : String
  id : String
  deriving DecidableEq

/-- The Content-Length capture of one header line in `http_response`
(`src/pubnub.rs` lines 52-62): while `body_length` is still 0 and the line
contains `Content-Length`, the second whitespace token must parse as an
unsigned integer (else the call fails); otherwise `body_length` is kept. -/
def http_headers_step (data : String) (body_length : Nat) : Except Unit Nat :=
  if body_length == 0 && strContains data "Content-Length" then
    match (split_whitespace data).get? 1 with
    | none => .error ()
    | some tok =>
      match parseUsize tok with
      | none => .error ()
      | some n => .ok n
  else .ok body_length

/-- The body phase of `http_response` (`src/pubnub.rs` lines 65-74): on the
end-of-headers line, read exactly `body_length` bytes and JSON-parse them,
both failures collapsing to `HTTPResponse`. -/
def http_body (jparse : String → Except Unit Json) (socket : Socket)
    (body_length : Nat) : Except Error Json × Socket :=
  match socket.read body_length with
  | (.error _, s2) => (.error Error.HTTPResponse, s2)
  | (.ok payload, s2) =>
    match jparse payload with
    | .ok response => (.ok response, s2)
    | .error _ => (.error Error.HTTPResponse, s2)

/-- `http_response` of `src/pubnub.rs` (lines 44-76), with `fuel` bounding
the number of header lines scanned (`none` = the source loop has not
returned within `fuel` iterations).  `jparse` is the external `json::parse`.
The loop reads a line (failure aborts with `HTTPResponse`), runs the
Content-Length capture, and on a line of byte length 2 runs the body phase
`http_body`. -/
def http_response (jparse : String → Except Unit Json) :
    Nat → Socket → Nat → Option (Except Error Json × Socket)
  | 0, _, _ => none
  | fuel + 1, socket, body_length =>
    match socket.readln with
    | (.error _, s1) => some (.error Error.HTTPResponse, s1)
    | (.ok data, s1) =>
      match http_headers_step data body_length with
      | .error _ => some (.error Error.HTTPResponse, s1)
      | .ok bl2 =>
        if byteLen data = 2 then some (http_body jparse s1 bl2)
        else http_response jparse fuel s1 bl2

/-- The subscribe engine state (`struct SubscribeClient` of `src/pubnub.rs`). -/
structure SubscribeClient where
  socket : Socket
  messages : List Message
  timetoken : String
  channel : String
  subscribe_key : String
  _secret_key : String
  agent : String

/-- The long-poll GET request built by `SubscribeClient::subscribe`
(`src/pubnub.rs` lines 174-182). -/
def subscribeRequest (c : SubscribeClient) : String :=
  "GET /v2/subscribe/" ++ c.subscribe_key ++ "/" ++ c.channel ++ "/0/" ++
    c.timetoken ++ "?pnsdk=" ++ c.agent ++ " HTTP/1.1\r\nHost: pubnub\r\n\r\n"

/-- `SubscribeClient::subscribe` (`src/pubnub.rs` lines 169-187): fail with
`MissingChannel` when the channel is empty, otherwise write the long-poll
request, a write failure becoming `SubscribeWrite`. -/
def SubscribeClient.subscribe (c : SubscribeClient) :
    Except Error Unit × SubscribeClient :=
  if c.channel.isEmpty then (.error Error.MissingChannel, c)
  else
    match c.socket.write (subscribeRequest c) with
    | (.ok _, s) => (.ok (), { c with socket := s })
    | (.error _, s) => (.error Error.SubscribeWrite, { c with socket := s })

/-- Decoding of one envelope member into a `Message` (`src/pubnub.rs` lines
154-159): channel from `"c"`, data from `"d"`, the placeholder metadata, and
the id from `"p"."t"`, each stringified. -/
def decodeMessage (m : Json) : Message :=
  { channel := (m.getKey "c").toStr
  , data := (m.getKey "d").toStr
  , metadata := "TODO metadata"
  , id := ((m.getKey "p").getKey "t").toStr }

/-- The state change `next_message` applies after a successful poll
(`src/pubnub.rs` lines 149-160): the timetoken becomes the stringified
`response["t"]["t"]` and every member of `response["m"]` is appended to the
message buffer, in envelope order. -/
def applyEnvelope (c : SubscribeClient) (response : Json) : SubscribeClient :=
  { c with
    timetoken := ((response.getKey "t").getKey "t").toStr,
    messages := c.messages ++ ((response.getKey "m").members.map decodeMessage) }

/-- `SubscribeClient::next_message` (`src/pubnub.rs` lines 131-167), with
`fuel` bounding the self-recursion depth and `hf` the header-scan fuel passed
to each `http_response` call.  Pop the most recently buffered message if any;
otherwise read a response — on failure fire one recovery poll, discard its
outcome and report `SubscribeRead`; on success apply the envelope, issue the
keep-warm poll and recurse, a keep-warm failure reporting `SubscribeRead`. -/
def next_message (jparse : String → Except Unit Json) :
    Nat → Nat → SubscribeClient → Option (Except Error Message × SubscribeClient)
  | _, 0, _ => none
  | hf, fuel + 1, c =>
    match c.messages.getLast? with
    | some m => some (.ok m, { c with messages := c.messages.dropLast })
    | none =>
      match http_response jparse hf c.socket 0 with
      | none => none
      | some (.error _, s1) =>
        some (.error Error.SubscribeRead,
              (SubscribeClient.subscribe { c with socket := s1 }).2)
      | some (.ok response, s1) =>
        match SubscribeClient.subscribe (applyEnvelope { c with socket := s1 } response) with
        | (.ok _, c2) => next_message jparse hf fuel c2
        | (.error _, c2) => some (.error Error.SubscribeRead, c2)

/-- The engine state `SubscribeClient::new` assembles before its initial poll
(`src/pubnub.rs` lines 115-123): empty buffer, timetoken `"0"`, the fixed
agent string, and the given socket (the result of the external
`Socket::new`). -/
def SubscribeClient.init (socket : Socket)
    (channel subscribe_key secret : String) : SubscribeClient :=
  { socket
  , messages := []
  , channel
  , timetoken := "0"
  , subscribe_key
  , _secret_key := secret
  , agent := "PubNub-Subscribe-Client" }

/-- `SubscribeClient::new` (`src/pubnub.rs` lines 106-129): build the state
and issue the initial poll; any failure of that poll is surfaced as
`Error::Subscribe`.  The second component exposes the transport state the
source drops on the error path, so that theorems can observe the I/O
performed. -/
def SubscribeClient.new (socket : Socket)
    (channel subscribe_key secret : String) :
    Except Error SubscribeClient × Socket :=
  match SubscribeClient.subscribe
      (SubscribeClient.init socket channel subscribe_key secret) with
  | (.ok _, p) => (.ok p, p.socket)
  | (.error _, p) => (.error Error.Subscribe, p.socket)

/-- The publish engine state (`struct PublishClient` of `src/pubnub.rs`). -/
structure PublishClient where
  socket : Socket
  publish_key : String
  subscribe_key : String
  _secret_key : String
  agent : String

/-- Modelled from the spec: one UTF-8 byte rendered as a percent escape. -/
def byteToPct (b : Nat) : String :=
  let hexDigit : Nat → Char := fun n =>
    if n < 10 then Char.ofNat (48 + n) else Char.ofNat (55 + n)
  String.mk ['%', hexDigit (b / 16), hexDigit (b % 16)]

/-- Modelled from the spec: the UTF-8 bytes of a character. -/
def charUtf8 (c : Char) : List Nat :=
  let n := c.toNat
  if n < 0x80 then [n]
  else if n < 0x800 then [0xC0 + n / 64, 0x80 + n % 64]
  else if n < 0x10000 then
    [0xE0 + n / 4096, 0x80 + (n / 64) % 64, 0x80 + n % 64]
  else
    [0xF0 + n / 262144, 0x80 + (n / 4096) % 64, 0x80 + (n / 64) % 64,
     0x80 + n % 64]

/-- Modelled from the spec: membership in the conservative
`DEFAULT_ENCODE_SET` of the external `percent_encoding` crate — controls,
space, the quote, hash, angle brackets, question mark, backtick, braces and
every non-ASCII byte. -/
def inDefaultEncodeSet (b : Nat) : Bool :=
  b < 0x20 || b == 0x20 || b == 0x22 || b == 0x23 || b == 0x3C ||
  b == 0x3E || b == 0x3F || b == 0x60 || b == 0x7B || b == 0x7D ||
  b >= 0x7F

/-- Modelled from the spec: `utf8_percent_encode` with `DEFAULT_ENCODE_SET`
(the external percent-encoder) — unreserved ASCII passes through, every
other byte of the UTF-8 encoding is escaped. -/
def utf8_percent_encode (s : String) : String :=
  String.join (s.data.map (fun c =>
    if c.toNat < 0x80 && !inDefaultEncodeSet c.toNat then String.mk [c]
    else String.join ((charUtf8 c).map byteToPct)))

/-- The GET request built by `PublishClient::publish` (`src/pubnub.rs` lines
214-226). -/
def publishRequest (c : PublishClient) (channel message : String) : String :=
  "GET /publish/" ++ c.publish_key ++ "/" ++ c.subscribe_key ++ "/0/" ++
    channel ++ "/0/" ++ utf8_percent_encode message ++ "?pnsdk=" ++ c.agent ++
    " HTTP/1.1\r\nHost: pubnub\r\n\r\n"

/-- `PublishClient::new` (`src/pubnub.rs` lines 191-207): always succeeds
with the given socket (the result of the external `Socket::new`). -/
def PublishClient.new (socket : Socket)
    (publish_key subscribe_key secret : String) : Except Error PublishClient :=
  .ok { socket
      , publish_key
      , subscribe_key
      , _secret_key := secret
      , agent := "PubNub-Publish-Client" }

/-- `PublishClient::publish` (`src/pubnub.rs` lines 209-238): write the
request (failure = `PublishWrite`), read and parse the response via
`http_response` (failure = `PublishResponse`), and return the stringified
element at index 2 of the parsed response. -/
def PublishClient.publish (jparse : String → Except Unit Json) (hf : Nat)
    (c : PublishClient) (channel message : String) :
    Option (Except Error String × PublishClient) :=
  match c.socket.write (publishRequest c channel message) with
  | (.error _, s1) => some (.error Error.PublishWrite, { c with socket := s1 })
  | (.ok _, s1) =>
    match http_response jparse hf s1 0 with
    | none => none
    | some (.error _, s2) =>
      some (.error Error.PublishResponse, { c with socket := s2 })
    | some (.ok response, s2) =>
      some (.ok ((response.getIdx 2).toStr), { c with socket := s2 })

/-! Concrete transport oracles, clients and envelopes used by the closed
witness and counterexample theorems below. -/

/-- A JSON oracle that parses nothing. -/
def jparseNone : String → Except Unit Json := fun _ => .error ()

/-- A transport where every operation succeeds trivially. -/
def sockOk : Socket :=
  { readlnF := fun _ => .ok "\r\n"
  , readF := fun _ _ => .ok ""
  , writeF := fun _ _ => .ok 0
  , lpos := 0, rpos := 0, wpos := 0, log := [] }

/-- First sample message. -/
def msgA : Message :=
  { channel := "demo", data := "one", metadata := "TODO metadata", id := "1" }

/-- Second sample message. -/
def msgB : Message :=
  { channel := "demo", data := "two", metadata := "TODO metadata", id := "2" }

/-- A subscribe engine holding two buffered messages. -/
def subBuf : SubscribeClient :=
  { socket := sockOk, messages := [msgA, msgB], timetoken := "0"
  , channel := "demo", subscribe_key := "sk", _secret_key := "x"
  , agent := "PubNub-Subscribe-Client" }

/-- Envelope member 1. -/
def jMsg1 : Json :=
  Json.obj [("c", Json.str "demo"), ("d", Json.str "hello"),
            ("p", Json.obj [("t", Json.str "101")])]

/-- Envelope member 2. -/
def jMsg2 : Json :=
  Json.obj [("c", Json.str "demo"), ("d", Json.str "world"),
            ("p", Json.obj [("t", Json.str "102")])]

/-- A two-message subscribe envelope with timetoken `15000`. -/
def respW : Json :=
  Json.obj [("t", Json.obj [("t", Json.str "15000")]),
            ("m", Json.arr [jMsg1, jMsg2])]

/-- JSON oracle mapping the body `ENV1` to the envelope `respW`. -/
def jparseW : String → Except Unit Json :=
  fun s => if s = "ENV1" then .ok respW else .error ()

/-- Transport serving one well-framed response with body `ENV1`. -/
def sockW : Socket :=
  { readlnF := fun i => if i = 0 then .ok "Content-Length: 4\r\n" else .ok "\r\n"
  , readF := fun _ _ => .ok "ENV1"
  , writeF := fun _ _ => .ok 0
  , lpos := 0, rpos := 0, wpos := 0, log := [] }

/-- Idle subscribe engine on `sockW`. -/
def subW2 : SubscribeClient :=
  { socket := sockW, messages := [], timetoken := "0"
  , channel := "demo", subscribe_key := "sk", _secret_key := "x"
  , agent := "PubNub-Subscribe-Client" }

/-- `sockW` after the two header reads and the body read. -/
def sockW1 : Socket :=
  { sockW with
    lpos := 2, rpos := 1,
    log := [SockEvent.readln, SockEvent.readln, SockEvent.read 4] }

/-- Like `sockW` but every write fails. -/
def sockW3 : Socket :=
  { sockW with writeF := fun _ _ => .error () }

/-- Idle subscribe engine on `sockW3`. -/
def subW3 : SubscribeClient :=
  { subW2 with socket := sockW3 }

/-- `sockW3` after the two header reads and the body read. -/
def sockW31 : Socket :=
  { sockW3 with
    lpos := 2, rpos := 1,
    log := [SockEvent.readln, SockEvent.readln, SockEvent.read 4] }

/-- `subW3` after the successful poll has been applied. -/
def subW3mid : SubscribeClient :=
  applyEnvelope { subW3 with socket := sockW31 } respW

/-- `subW3mid` after the failed keep-warm write. -/
def subW3fin : SubscribeClient :=
  { subW3mid with socket :=
      { sockW31 with
        wpos := 1,
        log := sockW31.log ++ [SockEvent.write (subscribeRequest subW3mid)] } }

/-- Transport whose line reads all fail (and writes succeed). -/
def sockR : Socket :=
  { readlnF := fun _ => .error ()
  , readF := fun _ _ => .ok ""
  , writeF := fun _ _ => .ok 9
  , lpos := 0, rpos := 0, wpos := 0, log := [] }

/-- Idle subscribe engine on `sockR`. -/
def subW5 : SubscribeClient :=
  { subW2 with socket := sockR }

/-- `sockR` after the one failed line read. -/
def sockR1 : Socket :=
  { sockR with lpos := 1, log := [SockEvent.readln] }

/-! Concrete publish clients for the C8 and C9 witnesses. -/

/-- Transport whose writes all fail. -/
def sockP1 : Socket :=
  { readlnF := fun _ => .ok "\r\n"
  , readF := fun _ _ => .ok ""
  , writeF := fun _ _ => .error ()
  , lpos := 0, rpos := 0, wpos := 0, log := [] }

/-- Publish engine on the failing-write transport. -/
def pubW1 : PublishClient :=
  { socket := sockP1, publish_key := "pk", subscribe_key := "sk"
  , _secret_key := "x", agent := "PubNub-Publish-Client" }

/-- Transport whose write succeeds but whose line reads fail. -/
def sockP2 : Socket :=
  { sockP1 with writeF := fun _ _ => .ok 5, readlnF := fun _ => .error () }

/-- Publish engine on `sockP2`. -/
def pubW2 : PublishClient :=
  { pubW1 with socket := sockP2 }

/-- `sockP2` after the request write. -/
def sockP21 : Socket :=
  { sockP2 with
    wpos := 1,
    log := [SockEvent.write (publishRequest pubW2 "room" "hi")] }

/-- `sockP21` after the failed line read. -/
def sockP22 : Socket :=
  { sockP21 with
    lpos := 1,
    log := [SockEvent.write (publishRequest pubW2 "room" "hi"), SockEvent.readln] }

/-- Transport serving a well-framed publish response with body `PUB1`. -/
def sockP3 : Socket :=
  { readlnF := fun i => if i = 0 then .ok "Content-Length: 4\r\n" else .ok "\r\n"
  , readF := fun _ _ => .ok "PUB1"
  , writeF := fun _ _ => .ok 99
  , lpos := 0, rpos := 0, wpos := 0, log := [] }

/-- An undersized publish response array: only two elements. -/
def respP : Json := Json.arr [Json.num 1, Json.str "Sent"]

/-- JSON oracle mapping the body `PUB1` to `respP`. -/
def jparseP : String → Except Unit Json :=
  fun s => if s = "PUB1" then .ok respP else .error ()

/-- Publish engine on `sockP3`. -/
def pubW3 : PublishClient :=
  { pubW1 with socket := sockP3 }

/-- `sockP3` after the request write. -/
def sockP31 : Socket :=
  { sockP3 with
    wpos := 1,
    log := [SockEvent.write (publishRequest pubW3 "room" "hi")] }

/-- `sockP31` after the two header reads and the body read. -/
def sockP32 : Socket :=
  { sockP31 with
    lpos := 2, rpos := 1,
    log := sockP31.log ++ [SockEvent.readln, SockEvent.readln, SockEvent.read 4] }

/-! Concrete transports for the HTTP Response Reader claims. -/

/-- Transport whose first header line carries `Content-Length: 0`, whose
second carries `Content-Length: 4`, followed by the end-of-headers line;
only a 4-byte body read yields the parseable body `ENV2`. -/
def sockC4 : Socket :=
  { readlnF := fun i =>
      if i = 0 then .ok "Content-Length: 0\r\n"
      else if i = 1 then .ok "Content-Length: 4\r\n"
      else .ok "\r\n"
  , readF := fun _ n => if n = 4 then .ok "ENV2" else .ok "BAD"
  , writeF := fun _ _ => .ok 0
  , lpos := 0, rpos := 0, wpos := 0, log := [] }

/-- JSON oracle parsing only the body `ENV2`. -/
def jparseC4 : String → Except Unit Json :=
  fun s => if s = "ENV2" then .ok (Json.str "ok") else .error ()

/-- Transport with a first `Content-Length: 4` line, a duplicate
`Content-Length: 9` line, then the end-of-headers line; the body is `ENV1`. -/
def sockC4b : Socket :=
  { readlnF := fun i =>
      if i = 0 then .ok "Content-Length: 4\r\n"
      else if i = 1 then .ok "Content-Length: 9\r\n"
      else .ok "\r\n"
  , readF := fun _ _ => .ok "ENV1"
  , writeF := fun _ _ => .ok 0
  , lpos := 0, rpos := 0, wpos := 0, log := [] }

/-- Transport with one ordinary header line, no Content-Length anywhere, then
the end-of-headers line; body reads return the empty string. -/
def sockC7 : Socket :=
  { readlnF := fun i => if i = 0 then .ok "Date: x\r\n" else .ok "\r\n"
  , readF := fun _ _ => .ok ""
  , writeF := fun _ _ => .ok 0
  , lpos := 0, rpos := 0, wpos := 0, log := [] }

/-- Transport whose every line read succeeds with a malformed Content-Length
line (token `ZZ`), never a line of byte length 2. -/
def sockC10 : Socket :=
  { readlnF := fun _ => .ok "Content-Length: ZZ\r\n"
  , readF := fun _ _ => .ok ""
  , writeF := fun _ _ => .ok 0
  , lpos := 0, rpos := 0, wpos := 0, log := [] }

/-- Transport whose every line read succeeds with an ordinary header line:
never an error, never byte length 2, never a Content-Length. -/
def sockC10b : Socket :=
  { readlnF := fun _ => .ok "X: 1\r\n"
  , readF := fun _ _ => .ok ""
  , writeF := fun _ _ => .ok 0
  , lpos := 0, rpos := 0, wpos := 0, log := [] }

/-! Helper lemmas shared by the claim theorems. -/

/-- `subscribe` only touches the socket: the message buffer survives. -/
theorem subscribe_snd_messages (c : SubscribeClient) :
    (SubscribeClient.subscribe c).2.messages = c.messages := by
  unfold SubscribeClient.subscribe
  split
  · rfl
  · split <;> rfl

/-- A header line that does not contain `Content-Length` leaves the body
length unchanged. -/
theorem http_headers_step_not_contains (d : String) (bl : Nat)
    (h : strContains d "Content-Length" = false) :
    http_headers_step d bl = .ok bl := by
  unfold http_headers_step
  simp [h]

/-- Once the body length is nonzero, the Content-Length capture ignores the
line entirely. -/
theorem http_headers_step_pos (d : String) (bl : Nat) (h : bl ≠ 0) :
    http_headers_step d bl = .ok bl := by
  unfold http_headers_step
  simp [h]

/-- A line whose capture succeeds on an unset body length succeeds on every
body length. -/
theorem http_headers_step_ok_any (d : String) (v bl : Nat)
    (h : http_headers_step d 0 = .ok v) :
    http_headers_step d bl = .ok (if bl = 0 then v else bl) := by
  by_cases hbl : bl = 0
  · subst hbl; simpa using h
  · rw [http_headers_step_pos d bl hbl, if_neg hbl]

/-- C1 (corrected), counterexample: constructing with an empty channel fails
with `Error.Subscribe`, not with `Error.MissingChannel` as the claim
states — `new` collapses every failure of the initial poll to
`Error.Subscribe`. -/
theorem new_empty_channel_not_missing_channel :
    (SubscribeClient.new sockOk "" "demo" "sec").1 = Except.error Error.Subscribe ∧
    Error.Subscribe ≠ Error.MissingChannel :=
  ⟨rfl, by decide⟩

/-- C1 (amended): constructing a Subscribe Engine with an empty channel
string fails — the internal `subscribe` step fails with `MissingChannel`,
which `new` surfaces as `Error.Subscribe` — and the transport comes back
untouched: zero socket writes. -/
theorem new_empty_channel_fails_no_write (socket : Socket)
    (subscribe_key secret : String) :
    SubscribeClient.new socket "" subscribe_key secret =
      (Except.error Error.Subscribe, socket) ∧
    SubscribeClient.subscribe
        (SubscribeClient.init socket "" subscribe_key secret) =
      (Except.error Error.MissingChannel,
       SubscribeClient.init socket "" subscribe_key secret) :=
  ⟨rfl, rfl⟩

/-- C6: with a non-empty pending buffer, `next_message` removes and returns
the most recently appended message (last-in-first-out against arrival
order) and leaves the socket untouched — no I/O. -/
theorem next_message_pops_last (jparse : String → Except Unit Json)
    (hf fuel : Nat) (c : SubscribeClient) (ms : List Message) (m : Message)
    (h : c.messages = ms ++ [m]) :
    next_message jparse hf (fuel + 1) c =
      some (.ok m, { c with messages := ms }) ∧
    ({ c with messages := ms } : SubscribeClient).socket = c.socket := by
  have h1 : c.messages.getLast? = some m := by
    rw [h]; exact List.getLast?_concat ms
  have h2 : c.messages.dropLast = ms := by
    rw [h]; exact List.dropLast_concat
  exact ⟨by simp only [next_message, h1, h2], rfl⟩

/-- C6 witness at a concrete two-message buffer. -/
theorem next_message_pops_last_witness :
    subBuf.messages = [msgA] ++ [msgB] ∧
    next_message jparseNone 0 1 subBuf =
      some (.ok msgB, { subBuf with messages := [msgA] }) ∧
    ({ subBuf with messages := [msgA] } : SubscribeClient).socket = subBuf.socket :=
  ⟨rfl, (next_message_pops_last jparseNone 0 0 subBuf [msgA] msgB rfl).1,
        (next_message_pops_last jparseNone 0 0 subBuf [msgA] msgB rfl).2⟩

/-- C2: when the buffer is empty and the poll succeeds with envelope `resp`,
the engine state after the envelope step holds exactly the envelope's
messages, in envelope order, and its timetoken is the stringified
`resp["t"]["t"]`; `next_message` then continues from exactly that state via
the keep-warm poll. -/
theorem next_message_success_buffers_envelope
    (jparse : String → Except Unit Json) (hf fuel : Nat)
    (c : SubscribeClient) (resp : Json) (s1 : Socket)
    (hempty : c.messages = [])
    (hresp : http_response jparse hf c.socket 0 = some (.ok resp, s1)) :
    (applyEnvelope { c with socket := s1 } resp).messages =
      ((resp.getKey "m").members).map decodeMessage ∧
    (applyEnvelope { c with socket := s1 } resp).messages.length =
      ((resp.getKey "m").members).length ∧
    (applyEnvelope { c with socket := s1 } resp).timetoken =
      ((resp.getKey "t").getKey "t").toStr ∧
    (∀ c2, SubscribeClient.subscribe (applyEnvelope { c with socket := s1 } resp) =
        (.ok (), c2) →
      next_message jparse hf (fuel + 1) c = next_message jparse hf fuel c2) ∧
    (∀ e c2, SubscribeClient.subscribe (applyEnvelope { c with socket := s1 } resp) =
        (.error e, c2) →
      next_message jparse hf (fuel + 1) c =
        some (.error Error.SubscribeRead, c2)) := by
  have hlast : c.messages.getLast? = none := by rw [hempty]; rfl
  refine ⟨?_, ?_, ?_, ?_, ?_⟩
  · simp [applyEnvelope, hempty]
  · simp [applyEnvelope, hempty]
  · simp [applyEnvelope]
  · intro c2 hsub
    simp only [next_message, hlast, hresp, hsub]
  · intro e c2 hsub
    simp only [next_message, hlast, hresp, hsub]

/-- C2 witness: a concrete two-message envelope; after the poll the buffer
holds both messages in envelope order and the timetoken is `15000`. -/
theorem next_message_success_buffers_envelope_witness :
    subW2.messages = [] ∧
    http_response jparseW 3 subW2.socket 0 = some (.ok respW, sockW1) ∧
    (applyEnvelope { subW2 with socket := sockW1 } respW).messages =
      ((respW.getKey "m").members).map decodeMessage ∧
    (applyEnvelope { subW2 with socket := sockW1 } respW).messages.length = 2 ∧
    (applyEnvelope { subW2 with socket := sockW1 } respW).timetoken = "15000" := by
  have h := next_message_success_buffers_envelope jparseW 3 0 subW2 respW sockW1
    rfl rfl
  exact ⟨rfl, rfl, h.1, h.2.1.trans rfl, h.2.2.1.trans rfl⟩

/-- C3: when the poll succeeds but the keep-warm subscribe write fails,
`next_message` reports an error (`SubscribeRead`) and never returns a
message, while the envelope's messages remain buffered in the final state. -/
theorem next_message_keepwarm_failure_holds_buffer
    (jparse : String → Except Unit Json) (hf fuel : Nat)
    (c : SubscribeClient) (resp : Json) (s1 : Socket) (e : Error)
    (c2 : SubscribeClient)
    (hempty : c.messages = [])
    (hresp : http_response jparse hf c.socket 0 = some (.ok resp, s1))
    (hsub : SubscribeClient.subscribe (applyEnvelope { c with socket := s1 } resp) =
      (.error e, c2)) :
    next_message jparse hf (fuel + 1) c =
      some (.error Error.SubscribeRead, c2) ∧
    c2.messages = ((resp.getKey "m").members).map decodeMessage := by
  have hlast : c.messages.getLast? = none := by rw [hempty]; rfl
  constructor
  · simp only [next_message, hlast, hresp, hsub]
  · have hpres := subscribe_snd_messages (applyEnvelope { c with socket := s1 } resp)
    rw [hsub] at hpres
    simpa [applyEnvelope, hempty] using hpres

/-- C3 witness: concrete failing keep-warm write after a successful
two-message poll; the call errors and both messages stay buffered. -/
theorem next_message_keepwarm_failure_holds_buffer_witness :
    subW3.messages = [] ∧
    http_response jparseW 3 subW3.socket 0 = some (.ok respW, sockW31) ∧
    SubscribeClient.subscribe (applyEnvelope { subW3 with socket := sockW31 } respW) =
      (.error Error.SubscribeWrite, subW3fin) ∧
    next_message jparseW 3 1 subW3 =
      some (.error Error.SubscribeRead, subW3fin) ∧
    subW3fin.messages = ((respW.getKey "m").members).map decodeMessage := by
  have h := next_message_keepwarm_failure_holds_buffer jparseW 3 0 subW3 respW
    sockW31 Error.SubscribeWrite subW3fin rfl rfl rfl
  exact ⟨rfl, rfl, rfl, h.1, h.2⟩

/-- C5: when the buffer is empty and the response read fails, `next_message`
performs exactly one recovery poll, discards its outcome, and reports the
original failure as `SubscribeRead` — the final state is the recovery
subscription's state whatever that attempt returned, and (for a nonempty
channel) the recovery attempt is exactly one further socket write. -/
theorem next_message_read_failure_single_recovery
    (jparse : String → Except Unit Json) (hf fuel : Nat)
    (c : SubscribeClient) (e : Error) (s1 : Socket)
    (hempty : c.messages = [])
    (hresp : http_response jparse hf c.socket 0 = some (.error e, s1)) :
    next_message jparse hf (fuel + 1) c =
      some (.error Error.SubscribeRead,
            (SubscribeClient.subscribe { c with socket := s1 }).2) ∧
    (c.channel.isEmpty = false →
      (SubscribeClient.subscribe { c with socket := s1 }).2.socket.log =
        s1.log ++ [SockEvent.write (subscribeRequest { c with socket := s1 })]) := by
  have hlast : c.messages.getLast? = none := by rw [hempty]; rfl
  constructor
  · simp only [next_message, hlast, hresp]
  · intro hch
    unfold SubscribeClient.subscribe
    simp only [hch, Bool.false_eq_true, if_false]
    split
    next n heq =>
      simp only [Socket.write, Prod.mk.injEq] at heq
      rw [← heq.2]
    next e2 heq =>
      simp only [Socket.write, Prod.mk.injEq] at heq
      rw [← heq.2]

/-- C5 witness: a concrete failed read followed by the single recovery poll;
the caller sees `SubscribeRead` and the log shows exactly one extra write. -/
theorem next_message_read_failure_single_recovery_witness :
    subW5.messages = [] ∧
    http_response jparseNone 1 subW5.socket 0 =
      some (.error Error.HTTPResponse, sockR1) ∧
    next_message jparseNone 1 1 subW5 =
      some (.error Error.SubscribeRead,
            (SubscribeClient.subscribe { subW5 with socket := sockR1 }).2) ∧
    (SubscribeClient.subscribe { subW5 with socket := sockR1 }).2.socket.log =
      sockR1.log ++ [SockEvent.write (subscribeRequest { subW5 with socket := sockR1 })] := by
  have h := next_message_read_failure_single_recovery jparseNone 1 0 subW5
    Error.HTTPResponse sockR1 rfl rfl
  exact ⟨rfl, rfl, h.1, h.2 rfl⟩

/-- C8: a failed request write makes `publish` return `PublishWrite` with no
read attempted (the final transport saw only the one write); a successful
write followed by a failed response read/parse returns `PublishResponse`. -/
theorem publish_write_and_response_errors
    (jparse : String → Except Unit Json) (hf : Nat)
    (c : PublishClient) (channel message : String) :
    (∀ e, c.socket.writeF c.socket.wpos (publishRequest c channel message) =
        .error e →
      PublishClient.publish jparse hf c channel message =
        some (.error Error.PublishWrite,
              { c with socket := (c.socket.write (publishRequest c channel message)).2 }) ∧
      (c.socket.write (publishRequest c channel message)).2.rpos = c.socket.rpos ∧
      (c.socket.write (publishRequest c channel message)).2.lpos = c.socket.lpos ∧
      (c.socket.write (publishRequest c channel message)).2.log =
        c.socket.log ++ [SockEvent.write (publishRequest c channel message)]) ∧
    (∀ n s1 e s2, c.socket.write (publishRequest c channel message) = (.ok n, s1) →
      http_response jparse hf s1 0 = some (.error e, s2) →
      PublishClient.publish jparse hf c channel message =
        some (.error Error.PublishResponse, { c with socket := s2 })) := by
  constructor
  · intro e he
    refine ⟨?_, rfl, rfl, rfl⟩
    unfold PublishClient.publish
    simp only [Socket.write, he]
  · intro n s1 e s2 hw hr
    unfold PublishClient.publish
    rw [hw]
    simp only [hr]

/-- C8 witness: a concrete failed write yields `PublishWrite` with no reads;
a concrete write-then-failed-read yields `PublishResponse`. -/
theorem publish_write_and_response_errors_witness :
    pubW1.socket.writeF pubW1.socket.wpos (publishRequest pubW1 "room" "hi") =
      .error () ∧
    PublishClient.publish jparseNone 1 pubW1 "room" "hi" =
      some (.error Error.PublishWrite,
            { pubW1 with socket := (pubW1.socket.write (publishRequest pubW1 "room" "hi")).2 }) ∧
    (pubW1.socket.write (publishRequest pubW1 "room" "hi")).2.rpos = 0 ∧
    (pubW1.socket.write (publishRequest pubW1 "room" "hi")).2.lpos = 0 ∧
    pubW2.socket.write (publishRequest pubW2 "room" "hi") = (.ok 5, sockP21) ∧
    http_response jparseNone 1 sockP21 0 =
      some (.error Error.HTTPResponse, sockP22) ∧
    PublishClient.publish jparseNone 1 pubW2 "room" "hi" =
      some (.error Error.PublishResponse, { pubW2 with socket := sockP22 }) := by
  have h1 := (publish_write_and_response_errors jparseNone 1 pubW1 "room" "hi").1 () rfl
  have h2 := (publish_write_and_response_errors jparseNone 1 pubW2 "room" "hi").2
    5 sockP21 Error.HTTPResponse sockP22 rfl rfl
  exact ⟨rfl, h1.1, h1.2.1, h1.2.2.1, rfl, rfl, h2⟩

/-- C9: on a successfully parsed publish response `resp`, `publish` returns
the stringified element at index 2 of `resp` — for any `resp`, with no
check that the response array has at least 3 elements. -/
theorem publish_returns_index_two
    (jparse : String → Except Unit Json) (hf : Nat)
    (c : PublishClient) (channel message : String) (n : Nat)
    (s1 s2 : Socket) (resp : Json)
    (hw : c.socket.write (publishRequest c channel message) = (.ok n, s1))
    (hr : http_response jparse hf s1 0 = some (.ok resp, s2)) :
    PublishClient.publish jparse hf c channel message =
      some (.ok ((resp.getIdx 2).toStr), { c with socket := s2 }) := by
  unfold PublishClient.publish
  rw [hw]
  simp only [hr]

/-- C9 witness: a concrete response array with only two elements — index 2
is out of range, no validation fires, and the call returns the stringified
null. -/
theorem publish_returns_index_two_witness :
    pubW3.socket.write (publishRequest pubW3 "room" "hi") = (.ok 99, sockP31) ∧
    http_response jparseP 3 sockP31 0 = some (.ok respP, sockP32) ∧
    respP.members.length = 2 ∧
    PublishClient.publish jparseP 3 pubW3 "room" "hi" =
      some (.ok "null", { pubW3 with socket := sockP32 }) := by
  have h := publish_returns_index_two jparseP 3 pubW3 "room" "hi" 99
    sockP31 sockP32 respP rfl rfl
  exact ⟨rfl, rfl, rfl, h⟩

/-- Scanning `n` successful header lines that neither contain
`Content-Length` nor have byte length 2 just advances the socket by `n` line
reads and leaves the body length unchanged. -/
theorem http_skip (jparse : String → Except Unit Json) (n : Nat) :
    ∀ (sock : Socket) (bl fuel : Nat) (f : Nat → String),
      (∀ i, i < n → sock.readlnF (sock.lpos + i) = .ok (f i)) →
      (∀ i, i < n → strContains (f i) "Content-Length" = false) →
      (∀ i, i < n → byteLen (f i) ≠ 2) →
      http_response jparse (n + fuel) sock bl =
        http_response jparse fuel (sock.advanceLn n) bl := by
  induction n with
  | zero =>
    intro sock bl fuel f _ _ _
    have h0 : sock.advanceLn 0 = sock := by
      cases sock
      simp [Socket.advanceLn]
    rw [Nat.zero_add, h0]
  | succ n ih =>
    intro sock bl fuel f h1 h2 h3
    have hline := h1 0 (Nat.succ_pos n)
    rw [Nat.add_zero] at hline
    have hstep := http_headers_step_not_contains (f 0) bl (h2 0 (Nat.succ_pos n))
    have hlen := h3 0 (Nat.succ_pos n)
    have harith : n + 1 + fuel = (n + fuel) + 1 := by omega
    rw [harith]
    simp only [http_response, Socket.readln, hline, hstep, if_neg hlen]
    have hadv :
        (({ sock with
            lpos := sock.lpos + 1,
            log := sock.log ++ [SockEvent.readln] } : Socket).advanceLn n) =
          sock.advanceLn (n + 1) := by
      cases sock
      simp [Socket.advanceLn, List.replicate_succ, Nat.add_assoc,
        Nat.add_comm 1 n]
    rw [ih _ bl fuel (fun i => f (i + 1)) ?_ ?_ ?_, hadv]
    · intro i hi
      have hr := h1 (i + 1) (by omega)
      show sock.readlnF (sock.lpos + 1 + i) = _
      rw [show sock.lpos + 1 + i = sock.lpos + (i + 1) by omega]
      exact hr
    · intro i hi
      exact h2 (i + 1) (by omega)
    · intro i hi
      exact h3 (i + 1) (by omega)

/-- C7: with no Content-Length among the header lines, the body length stays
0 — on end-of-headers a zero-length body read is performed — and when its
payload fails JSON parsing (as the empty body does for the real decoder) the
call returns the typed `HTTPResponse` error; being a total function of the
embedding, it cannot panic. -/
theorem http_response_no_content_length_reads_zero
    (jparse : String → Except Unit Json) (n k : Nat) (sock : Socket)
    (f : Nat → String) (dn payload : String)
    (h1 : ∀ i, i < n → sock.readlnF (sock.lpos + i) = .ok (f i))
    (h2 : ∀ i, i < n → strContains (f i) "Content-Length" = false)
    (h3 : ∀ i, i < n → byteLen (f i) ≠ 2)
    (h4 : sock.readlnF (sock.lpos + n) = .ok dn)
    (h5 : strContains dn "Content-Length" = false)
    (h6 : byteLen dn = 2)
    (h7 : sock.readF sock.rpos 0 = .ok payload)
    (h8 : jparse payload = .error ()) :
    http_response jparse (n + (k + 1)) sock 0 =
      some (.error Error.HTTPResponse,
        { sock with
          lpos := sock.lpos + n + 1, rpos := sock.rpos + 1,
          log := sock.log ++ List.replicate (n + 1) SockEvent.readln ++
                 [SockEvent.read 0] }) := by
  rw [http_skip jparse n sock 0 (k + 1) f h1 h2 h3]
  have hlf : (sock.advanceLn n).readlnF = sock.readlnF := rfl
  have hlp : (sock.advanceLn n).lpos = sock.lpos + n := rfl
  have hrf : (sock.advanceLn n).readF = sock.readF := rfl
  have hrp : (sock.advanceLn n).rpos = sock.rpos := rfl
  have hstep := http_headers_step_not_contains dn 0 h5
  simp only [http_response, http_body, Socket.readln, Socket.read, hlf, hlp,
    hrf, hrp, h4, hstep, if_pos h6, h7, h8]
  cases sock
  simp [Socket.advanceLn, List.replicate_succ', Nat.add_assoc]

/-- C7 witness: one ordinary header line, no Content-Length anywhere, end of
headers, a zero-length body read, and the typed `HTTPResponse` error. -/
theorem http_response_no_content_length_reads_zero_witness :
    strContains "Date: x\r\n" "Content-Length" = false ∧
    jparseNone "" = .error () ∧
    http_response jparseNone 2 sockC7 0 =
      some (.error Error.HTTPResponse,
        { sockC7 with
          lpos := 2, rpos := 1,
          log := [SockEvent.readln, SockEvent.readln, SockEvent.read 0] }) := by
  refine ⟨rfl, rfl, ?_⟩
  exact http_response_no_content_length_reads_zero jparseNone 1 0 sockC7
    (fun _ => "Date: x\r\n") "\r\n" ""
    (by intro i hi; have hz : i = 0 := (by omega); subst hz; rfl)
    (by intro i hi; rfl)
    (by intro i hi; show byteLen "Date: x\r\n" ≠ 2; decide)
    rfl rfl rfl rfl rfl

/-- C4 (corrected), counterexample: the first line containing Content-Length
parses to 0, which leaves `body_length` unset, so the later duplicate
`Content-Length: 4` line is honored — the body read requests 4 bytes (see
the final log), not the first occurrence's 0. -/
theorem http_response_second_content_length_honored :
    strContains "Content-Length: 0\r\n" "Content-Length" = true ∧
    (split_whitespace "Content-Length: 0\r\n").get? 1 = some "0" ∧
    parseUsize "0" = some 0 ∧
    strContains "Content-Length: 4\r\n" "Content-Length" = true ∧
    http_response jparseC4 3 sockC4 0 =
      some (.ok (Json.str "ok"),
        { sockC4 with
          lpos := 3, rpos := 1,
          log := [SockEvent.readln, SockEvent.readln, SockEvent.readln,
                  SockEvent.read 4] }) :=
  ⟨rfl, rfl, rfl, rfl, rfl⟩

/-- C4 (amended): a Content-Length line that sets a nonzero body length `v`
is the one honored — every later header line, Content-Length duplicates
included, is ignored by the capture, and the body phase reads exactly `v`
bytes.  (While the body length is still 0, as after a first Content-Length
parsing to 0, later Content-Length lines are still examined.) -/
theorem http_response_first_nonzero_content_length_honored
    (jparse : String → Except Unit Json) (fuel : Nat) (sock : Socket)
    (d0 d1 d2 : String) (v : Nat)
    (h0 : sock.readlnF sock.lpos = .ok d0)
    (h1 : sock.readlnF (sock.lpos + 1) = .ok d1)
    (h2 : sock.readlnF (sock.lpos + 2) = .ok d2)
    (hstep0 : http_headers_step d0 0 = .ok v)
    (hv : v ≠ 0)
    (hl0 : byteLen d0 ≠ 2) (hl1 : byteLen d1 ≠ 2)
    (hd2 : strContains d2 "Content-Length" = false)
    (hl2 : byteLen d2 = 2) :
    http_response jparse (fuel + 3) sock 0 =
      some (http_body jparse (sock.advanceLn 3) v) := by
  have hs1 : http_headers_step d1 v = .ok v := http_headers_step_pos d1 v hv
  have hs2 : http_headers_step d2 v = .ok v :=
    http_headers_step_not_contains d2 v hd2
  have h1a : sock.readlnF (sock.lpos + 1) = .ok d1 := h1
  have h2a : sock.readlnF (sock.lpos + 1 + 1) = .ok d2 := h2
  show http_response jparse (fuel + 1 + 1 + 1) sock 0 = _
  simp only [http_response, Socket.readln, h0, hstep0, if_neg hl0, h1a, hs1,
    if_neg hl1, h2a, hs2, if_pos hl2]
  have hadv :
      ({ sock with
         lpos := sock.lpos + 1 + 1 + 1,
         log := ((sock.log ++ [SockEvent.readln]) ++ [SockEvent.readln]) ++
                [SockEvent.readln] } : Socket) = sock.advanceLn 3 := by
    cases sock
    simp [Socket.advanceLn, List.replicate_succ]
  rw [hadv]

/-- C4 amended-claim witness: first Content-Length 4, duplicate
Content-Length 9, end of headers — the body phase runs with length 4 and the
4-byte body `ENV1` parses. -/
theorem http_response_first_nonzero_content_length_honored_witness :
    sockC4b.readlnF 0 = .ok "Content-Length: 4\r\n" ∧
    http_headers_step "Content-Length: 4\r\n" 0 = .ok 4 ∧
    strContains "Content-Length: 9\r\n" "Content-Length" = true ∧
    http_response jparseW 3 sockC4b 0 =
      some (http_body jparseW (sockC4b.advanceLn 3) 4) ∧
    http_body jparseW (sockC4b.advanceLn 3) 4 =
      (.ok respW,
        { sockC4b with
          lpos := 3, rpos := 1,
          log := [SockEvent.readln, SockEvent.readln, SockEvent.readln,
                  SockEvent.read 4] }) := by
  refine ⟨rfl, rfl, rfl, ?_, rfl⟩
  exact http_response_first_nonzero_content_length_honored jparseW 0 sockC4b
    "Content-Length: 4\r\n" "Content-Length: 9\r\n" "\r\n" 4
    rfl rfl rfl rfl (by decide) (by decide) (by decide) rfl rfl

/-- C10 (corrected), counterexample: a transport whose every line read
succeeds with the same malformed `Content-Length: ZZ` line — never a read
error, never a line of byte length 2 — yet `http_response` returns on the
very first line, because the Content-Length token fails to parse. -/
theorem http_response_returns_on_bad_content_length :
    sockC10.readlnF 0 = .ok "Content-Length: ZZ\r\n" ∧
    byteLen "Content-Length: ZZ\r\n" ≠ 2 ∧
    parseUsize "ZZ" = none ∧
    http_response jparseNone 1 sockC10 0 =
      some (.error Error.HTTPResponse,
            { sockC10 with lpos := 1, log := [SockEvent.readln] }) :=
  ⟨rfl, by decide, rfl, rfl⟩

/-- C10 (amended): on a line stream where every read succeeds, no line has
byte length 2, and no line makes the Content-Length capture fail,
`http_response` never returns: the fuel-indexed model yields `none` for
every fuel bound.  (Contrapositive: the call returns only on a read error, a
length-2 line, or a Content-Length line whose token fails to parse while the
body length is unset.) -/
theorem http_response_diverges_without_trigger
    (jparse : String → Except Unit Json) :
    ∀ (fuel : Nat) (sock : Socket) (bl : Nat),
      (∀ i, ∃ d v, sock.readlnF (sock.lpos + i) = .ok d ∧ byteLen d ≠ 2 ∧
                   http_headers_step d 0 = .ok v) →
      http_response jparse fuel sock bl = none := by
  intro fuel
  induction fuel with
  | zero => intro sock bl _; rfl
  | succ n ih =>
    intro sock bl h
    obtain ⟨d, v, hd, hlen, hstep⟩ := h 0
    rw [Nat.add_zero] at hd
    have hstep2 := http_headers_step_ok_any d v bl hstep
    simp only [http_response, Socket.readln, hd, hstep2, if_neg hlen]
    apply ih
    intro i
    obtain ⟨d2, v2, hd2, hlen2, hstep3⟩ := h (i + 1)
    refine ⟨d2, v2, ?_, hlen2, hstep3⟩
    show sock.readlnF (sock.lpos + 1 + i) = .ok d2
    rw [show sock.lpos + 1 + i = sock.lpos + (i + 1) by omega]
    exact hd2

/-- C10 amended-claim witness: a constant stream of ordinary header lines —
every read succeeds, none has byte length 2, none trips the capture — and
the reader returns nothing at a concrete fuel bound. -/
theorem http_response_diverges_without_trigger_witness :
    sockC10b.readlnF 0 = .ok "X: 1\r\n" ∧
    byteLen "X: 1\r\n" ≠ 2 ∧
    http_response jparseNone 7 sockC10b 0 = none := by
  refine ⟨rfl, by decide, ?_⟩
  exact http_response_diverges_without_trigger jparseNone 7 sockC10b 0
    (fun i => ⟨"X: 1\r\n", 0, rfl, by decide, rfl⟩)
